import Mathlib

/-!
# Verification of the openai-image-mcp tool-invocation layer

Shallow embedding of the MCP image-generation server, in its two deployment
variants:

* the inline/optional-save variant (`src/unnamed/part_001`): default
  `response_format` is `"b64_json"`, caller may override it, and may supply an
  `image_path` to persist the first image's decoded base64 bytes;
* the URL-forced variant (`src/src/index.ts`): `response_format` is forced to
  `"url"`, no persistence path is accepted, and the response text is the first
  image entry's URL.

JavaScript untyped values in the arguments bag are modelled by `ArgValue`
(numbers as `Int`; the claims under study never involve fractional or NaN
values). Truthiness (`x && { f : x }` overlay spreads, `a || b` defaulting)
is modelled by `truthy` / `jsOr`. The downstream HTTP exchange is modelled by
the `Downstream` oracle passed to the handler; the filesystem by an
association list of path/bytes pairs; `path.resolve` by an arbitrary function
parameter `resolve`.
-/

namespace ImageMcp

/-- An untyped JavaScript value appearing in the arguments bag.
Numbers are modelled as `Int` (the source quirks at issue concern only the
value `0` versus non-zero integers). -/
inductive ArgValue where
  | vStr (s : String)
  | vNum (k : Int)
  | vBool (b : Bool)
  | vNull
  deriving DecidableEq, Repr

/-- JavaScript truthiness of an argument value: `0`, `""`, `false` and `null`
are falsy, everything else modelled here is truthy. -/
def truthy : ArgValue → Bool
  | .vStr s => s ≠ ""
  | .vNum k => k ≠ 0
  | .vBool b => b
  | .vNull => false

/-- JavaScript `a || b` on an optional string `a` (absent or empty falls back
to `b`), as used for `defaultModel || "…"`, `openaiApiUrl || "…"` and
`error.response?.data?.message || error.message`. -/
def jsOr (a : Option String) (b : String) : String :=
  match a with
  | some s => if s ≠ "" then s else b
  | none => b

/-- The fields of the `generate_image` arguments object.  Each field is
`none` when the caller omitted it and `some v` when the caller supplied the
(untyped) value `v`.  `response_format` and `image_path` exist only in the
inline/optional-save variant's schema, but a caller may send them to either
variant; the URL-forced variant ignores them. -/
structure ArgsObject where
  prompt : Option ArgValue := none
  model : Option ArgValue := none
  width : Option ArgValue := none
  height : Option ArgValue := none
  steps : Option ArgValue := none
  n : Option ArgValue := none
  response_format : Option ArgValue := none
  image_path : Option ArgValue := none
  deriving DecidableEq, Repr

/-- `request.params.arguments`: absent (`undefined`/`null`, both falsy),
present but not an object (`typeof !== 'object'`), or an arguments object. -/
inductive Arguments where
  | absent
  | nonObject (v : ArgValue)
  | obj (o : ArgsObject)
  deriving DecidableEq, Repr

/-- The JSON body POSTed to the image-generation API.  Fields spread from the
defaults are well-typed; fields overlaid from the caller keep whatever
(untyped) value the caller supplied, so every field is an `ArgValue`. -/
structure RequestBody where
  model : ArgValue
  width : ArgValue
  height : ArgValue
  steps : ArgValue
  n : ArgValue
  response_format : ArgValue
  prompt : String
  deriving DecidableEq, Repr

/-- `...(args.f && { f: args.f })`: the default is kept when the caller
omitted the field or supplied a falsy value; a truthy supplied value wins. -/
def overlayField (dflt : ArgValue) (supplied : Option ArgValue) : ArgValue :=
  match supplied with
  | none => dflt
  | some v => if truthy v then v else dflt

/-! ## Inline/optional-save variant (`src/unnamed/part_001`) -/

/-- The module-level `defaultConfig` of the inline/optional-save variant. -/
structure P1Config where
  model : String
  width : Int
  height : Int
  steps : Int
  n : Int
  response_format : String
  deriving DecidableEq, Repr

/-- `const defaultConfig = { model: "black-forest-labs/FLUX.1-schnell-Free",
width: 1024, height: 768, steps: 1, n: 1, response_format: "b64_json" }`. -/
def defaultConfig : P1Config :=
  { model := "black-forest-labs/FLUX.1-schnell-Free"
    width := 1024
    height := 768
    steps := 1
    n := 1
    response_format := "b64_json" }

/-- The `requestBody` object literal of the inline/optional-save variant:
spread of `defaultConfig`, then `prompt`, then the conditional truthy
overlays for `model`, `width`, `height`, `steps`, `n`, `response_format`.
`p` is the validated string value of `o.prompt`. -/
def buildRequestBody (o : ArgsObject) (p : String) : RequestBody :=
  { model := overlayField (.vStr defaultConfig.model) o.model
    width := overlayField (.vNum defaultConfig.width) o.width
    height := overlayField (.vNum defaultConfig.height) o.height
    steps := overlayField (.vNum defaultConfig.steps) o.steps
    n := overlayField (.vNum defaultConfig.n) o.n
    response_format := overlayField (.vStr defaultConfig.response_format) o.response_format
    prompt := p }

/-! ## URL-forced variant (`src/src/index.ts`) -/

/-- The per-instance default config of the URL-forced variant
(`BaseDefaultConfig & { model: string }`). -/
structure UrlDefaultConfig where
  width : Int
  height : Int
  steps : Int
  n : Int
  model : String
  deriving DecidableEq, Repr

/-- The constructor's `baseDefaultConfig` merged with
`model: defaultModel || "black-forest-labs/FLUX.1-schnell-Free"`. -/
def mkDefaultConfig (defaultModel : Option String) : UrlDefaultConfig :=
  { width := 1024
    height := 768
    steps := 1
    n := 1
    model := jsOr defaultModel "black-forest-labs/FLUX.1-schnell-Free" }

/-- The readonly instance state of `ImageGenerationServer` in the URL-forced
variant: `apiKey`, `openaiApiUrl`, `defaultConfig`. -/
structure InstanceConfig where
  apiKey : String
  openaiApiUrl : String
  defaultConfig : UrlDefaultConfig
  deriving DecidableEq, Repr

/-- The `ImageGenerationServer` constructor of the URL-forced variant:
endpoint defaulting via `||`, the `OPENAI_API_KEY is required` guard, and the
default-config assembly. -/
def mkImageGenerationServer (apiKey : String) (openaiApiUrl : Option String)
    (defaultModel : Option String) : Except String InstanceConfig :=
  if apiKey = "" then .error "OPENAI_API_KEY is required"
  else .ok
    { apiKey := apiKey
      openaiApiUrl := jsOr openaiApiUrl "https://api.openai.com/v1/images/generations"
      defaultConfig := mkDefaultConfig defaultModel }

/-- The `requestBody` object literal of the URL-forced variant: spread of the
instance's `defaultConfig`, then `prompt`, then the truthy overlays for
`model`, `width`, `height`, `steps`, `n`, and finally `response_format: "url"`
written last, so it is forced regardless of the caller's arguments. -/
def buildRequestBodyUrl (cfg : UrlDefaultConfig) (o : ArgsObject) (p : String) : RequestBody :=
  { model := overlayField (.vStr cfg.model) o.model
    width := overlayField (.vNum cfg.width) o.width
    height := overlayField (.vNum cfg.height) o.height
    steps := overlayField (.vNum cfg.steps) o.steps
    n := overlayField (.vNum cfg.n) o.n
    response_format := .vStr "url"
    prompt := p }

/-! ## Downstream exchange, outcomes, filesystem -/

/-- One per-image entry of the downstream JSON response
(`{ …, b64_json?, url? }`).  A field is `none` when absent. -/
structure ImageEntry where
  b64_json : Option String := none
  url : Option String := none
  deriving DecidableEq, Repr

/-- The downstream success body `response.data`: the `data` list of image
entries, plus `rawJson`, the serialized form `JSON.stringify(response.data,
null, 2)` that the handler passes through opaquely as response text. -/
structure ApiResponse where
  data : List ImageEntry
  rawJson : String
  deriving DecidableEq, Repr

/-- Outcome of the single `axios.post` for one invocation:
a success body; an axios error (`axios.isAxiosError` true) whose
`response` is `none` when the error carries no structured response at all
(e.g. a pure network failure) and `some dm` when a response is present with
`dm` its `data.message` field (if any), and whose `error.message` is
`message`; or any other thrown failure, carried opaquely as `e`. -/
inductive Downstream where
  | success (resp : ApiResponse)
  | axiosError (response : Option (Option String)) (message : String)
  | otherFailure (e : String)
  deriving DecidableEq, Repr

/-- The flagged-error text of the catch block:
`API Error: ${error.response?.data?.message || error.message}`. -/
def axiosErrorText (response : Option (Option String)) (message : String) : String :=
  "API Error: " ++
    match response with
    | some dm => jsOr dm message
    | none => message

/-- MCP categorical error codes used by the handler. -/
inductive McpCode where
  | methodNotFound
  | invalidParams
  | internalError
  deriving DecidableEq, Repr

/-- What one invocation of the call-tool handler produces at the protocol
level: a thrown `McpError` with a categorical code; a completed tool result
whose `content` is a list of text blocks and whose `isError` flag marks a
non-fatal failure; or a re-thrown (propagated) fault. -/
inductive CallOutcome where
  | mcpError (code : McpCode) (message : String)
  | toolResult (content : List String) (isError : Bool)
  | fault (e : String)
  deriving DecidableEq, Repr

/-- The filesystem, as an association list from paths to byte lists; a write
shadows earlier entries for the same path. -/
abbrev FS : Type := List (String × List Nat)

/-- Read the file at `p`, if any. -/
def readFS (fsys : FS) (p : String) : Option (List Nat) :=
  (List.find? (fun e => e.1 = p) fsys).map (fun e => e.2)

/-- `fs.writeFile p bytes` (writes are modelled as always succeeding; no
claim under study concerns a failing write). -/
def writeFS (fsys : FS) (p : String) (bytes : List Nat) : FS :=
  (p, bytes) :: fsys

/-- Argument validation shared by both variants (`createCallToolHandler`):
routes away unknown tool names, rejects a missing/non-object arguments bag,
and requires `prompt` to be present and a string.  Returns the validated
arguments object and prompt string on success. -/
def validateCall (name : String) (args : Arguments) :
    Except CallOutcome (ArgsObject × String) :=
  if name ≠ "generate_image" then
    .error (.mcpError .methodNotFound ("Unknown tool: " ++ name))
  else
    match args with
    | .absent => .error (.mcpError .invalidParams "Invalid arguments provided")
    | .nonObject _ => .error (.mcpError .invalidParams "Invalid arguments provided")
    | .obj o =>
      match o.prompt with
      | some (.vStr p) => .ok (o, p)
      | _ => .error (.mcpError .invalidParams "Prompt is required and must be a string")

/-! ## Base64 (model of `Buffer.from(s, 'base64')` and of the encoding that
produced the downstream `b64_json` field) -/

/-- The RFC 4648 base64 alphabet. -/
def b64Alphabet : List Char :=
  "ABCDEFGHIJKLMNOPQRSTUVWXYZabcdefghijklmnopqrstuvwxyz0123456789+/".toList

/-- The character encoding the 6-bit value `k`. -/
def sixbitToChar (k : Nat) : Char := b64Alphabet.getD k 'A'

/-- The 6-bit value of an alphabet character, `none` for anything else. -/
def charToSixbit (c : Char) : Option Nat := b64Alphabet.indexOf? c

/-- Base64-encode a byte list (each element < 256), with `=` padding. -/
def encodeB64 : List Nat → List Char
  | [] => []
  | [a] =>
    [sixbitToChar (a / 4), sixbitToChar (a % 4 * 16), '=', '=']
  | [a, b] =>
    [sixbitToChar (a / 4), sixbitToChar (a % 4 * 16 + b / 16),
     sixbitToChar (b % 16 * 4), '=']
  | a :: b :: c :: rest =>
    sixbitToChar (a / 4) :: sixbitToChar (a % 4 * 16 + b / 16) ::
    sixbitToChar (b % 16 * 4 + c / 64) :: sixbitToChar (c % 64) ::
    encodeB64 rest

/-- Base64-decode a character list in 4-character groups, honouring `=`
padding; garbage decodes to as much as was recognisable (Node's decoder is
lenient — the claims only exercise it on well-formed encodings). -/
def decodeB64 : List Char → List Nat
  | c1 :: c2 :: c3 :: c4 :: rest =>
    match charToSixbit c1, charToSixbit c2 with
    | some w, some x =>
      if c3 = '=' then [w * 4 + x / 16]
      else
        match charToSixbit c3 with
        | some y =>
          if c4 = '=' then [w * 4 + x / 16, x % 16 * 16 + y / 4]
          else
            match charToSixbit c4 with
            | some z =>
              (w * 4 + x / 16) :: (x % 16 * 16 + y / 4) :: (y % 4 * 64 + z) ::
              decodeB64 rest
            | none => []
        | none => []
    | _, _ => []
  | _ => []

/-- `Buffer.from(s, 'base64')` on a string. -/
def bufferFromBase64 (s : String) : List Nat := decodeB64 s.toList

/-- The base64 string encoding a byte list. -/
def toBase64String (bytes : List Nat) : String := String.mk (encodeB64 bytes)

/-! ## The call-tool handler, inline/optional-save variant -/

/-- Result of one invocation of the inline/optional-save variant's handler:
the protocol outcome, the request body POSTed downstream (`none` when
validation failed before any network call), and the filesystem afterwards. -/
structure B64Result where
  outcome : CallOutcome
  sentRequest : Option RequestBody
  fsAfter : FS
  deriving Repr

/-- The first image entry's `b64_json`
(`response.data.data?.[0]?.b64_json`). -/
def firstB64 (resp : ApiResponse) : Option String :=
  resp.data.head?.bind (fun e => e.b64_json)

/-- The first image entry's `url` (`response.data?.data?.[0]?.url`). -/
def firstUrl (resp : ApiResponse) : Option String :=
  resp.data.head?.bind (fun e => e.url)

/-- Result shaping of the inline/optional-save variant after a successful
downstream call: when `image_path` is truthy and the first entry's `b64_json`
is truthy, decode the base64 bytes, resolve the path, write the file and
confirm the location before the pretty-printed JSON; otherwise return the
pretty-printed JSON alone.  A truthy non-string `image_path` makes
`path.resolve` throw inside the save `try`, which the source wraps as an
internal `Failed to save image:` error. -/
def shapeSuccessB64 (resolve : String → String) (o : ArgsObject)
    (resp : ApiResponse) (fsys : FS) : CallOutcome × FS :=
  match o.image_path, firstB64 resp with
  | some ip, some s =>
    if truthy ip ∧ s ≠ "" then
      match ip with
      | .vStr pathArg =>
        let outputPath := resolve pathArg
        let imageBuffer := bufferFromBase64 s
        (.toolResult
          ["Image saved successfully to: " ++ outputPath ++ "\n\n" ++ resp.rawJson]
          false,
         writeFS fsys outputPath imageBuffer)
      | _ =>
        (.mcpError .internalError
          "Failed to save image: The \"path\" argument must be of type string.",
         fsys)
    else (.toolResult [resp.rawJson] false, fsys)
  | _, _ => (.toolResult [resp.rawJson] false, fsys)

/-- One invocation of the inline/optional-save variant's call-tool handler
(`createCallToolHandler` of `src/unnamed/part_001`): routing, argument
validation, request-body assembly, the downstream POST (whose outcome is the
oracle `d`), then result shaping and the catch block. -/
def handleCallB64 (resolve : String → String) (name : String)
    (args : Arguments) (d : Downstream) (fsys : FS) : B64Result :=
  match validateCall name args with
  | .error out => { outcome := out, sentRequest := none, fsAfter := fsys }
  | .ok (o, p) =>
    let requestBody := buildRequestBody o p
    match d with
    | .success resp =>
      let (out, fsys') := shapeSuccessB64 resolve o resp fsys
      { outcome := out, sentRequest := some requestBody, fsAfter := fsys' }
    | .axiosError response message =>
      { outcome := .toolResult [axiosErrorText response message] true
        sentRequest := some requestBody
        fsAfter := fsys }
    | .otherFailure e =>
      { outcome := .fault e, sentRequest := some requestBody, fsAfter := fsys }

/-! ## The call-tool handler, URL-forced variant -/

/-- Result of one invocation of the URL-forced variant's handler: the
protocol outcome, the request body POSTed downstream (`none` when validation
failed before any network call), and the instance state afterwards (the
source's fields are `readonly` and never reassigned, so the handler hands
the configuration back untouched). -/
structure UrlResult where
  outcome : CallOutcome
  sentRequest : Option RequestBody
  cfgAfter : InstanceConfig
  deriving Repr

/-- Result shaping of the URL-forced variant after a successful downstream
call: extract `response.data?.data?.[0]?.url`; when falsy (absent or empty),
throw an internal `McpError`; otherwise return only the URL. -/
def shapeSuccessUrl (resp : ApiResponse) : CallOutcome :=
  match firstUrl resp with
  | some imageUrl =>
    if imageUrl ≠ "" then .toolResult [imageUrl] false
    else .mcpError .internalError "API response did not contain an image URL."
  | none => .mcpError .internalError "API response did not contain an image URL."

/-- One invocation of the URL-forced variant's call-tool handler
(`createCallToolHandler` of `src/src/index.ts`): routing, argument
validation, request-body assembly with `response_format` forced to `"url"`,
the downstream POST (oracle `d`), URL extraction and the catch block.
Note the `McpError` thrown for a missing URL is not an axios error, so the
catch block re-throws it unchanged. -/
def handleCallUrl (cfg : InstanceConfig) (name : String) (args : Arguments)
    (d : Downstream) : UrlResult :=
  match validateCall name args with
  | .error out => { outcome := out, sentRequest := none, cfgAfter := cfg }
  | .ok (o, p) =>
    let requestBody := buildRequestBodyUrl cfg.defaultConfig o p
    match d with
    | .success resp =>
      { outcome := shapeSuccessUrl resp
        sentRequest := some requestBody
        cfgAfter := cfg }
    | .axiosError response message =>
      { outcome := .toolResult [axiosErrorText response message] true
        sentRequest := some requestBody
        cfgAfter := cfg }
    | .otherFailure e =>
      { outcome := .fault e, sentRequest := some requestBody, cfgAfter := cfg }

/-! ## Helper lemmas -/

theorem validateCall_ok (o : ArgsObject) (p : String)
    (h : o.prompt = some (.vStr p)) :
    validateCall "generate_image" (.obj o) = .ok (o, p) := by
  simp [validateCall, h]

theorem handleCallB64_sent (resolve : String → String) (o : ArgsObject)
    (p : String) (d : Downstream) (fsys : FS)
    (h : o.prompt = some (.vStr p)) :
    (handleCallB64 resolve "generate_image" (.obj o) d fsys).sentRequest
      = some (buildRequestBody o p) := by
  unfold handleCallB64
  rw [validateCall_ok o p h]
  cases d <;> rfl

theorem handleCallUrl_sent (cfg : InstanceConfig) (o : ArgsObject)
    (p : String) (d : Downstream)
    (h : o.prompt = some (.vStr p)) :
    (handleCallUrl cfg "generate_image" (.obj o) d).sentRequest
      = some (buildRequestBodyUrl cfg.defaultConfig o p) := by
  unfold handleCallUrl
  rw [validateCall_ok o p h]
  cases d <;> rfl

theorem overlayField_none (dflt : ArgValue) : overlayField dflt none = dflt := rfl

theorem overlayField_num (dflt : ArgValue) (v : Int) :
    overlayField dflt (some (.vNum v)) = if v ≠ 0 then .vNum v else dflt := by
  simp [overlayField, truthy]

/-! ## Claim theorems -/

/-- **C1.** For every invocation of `generate_image` whose arguments bag
contains only a (string) prompt, the outbound HTTP request body equals the
configured defaults — model, width 1024, height 768, steps 1, n 1, and
response_format where applicable (`"b64_json"` default in the
inline/optional-save variant, the forced `"url"` in the URL-forced variant)
— with the supplied prompt overlaid, field for field. -/
theorem c1_only_prompt_request_equals_defaults (p : String)
    (resolve : String → String) (d : Downstream) (fsys : FS)
    (key endpoint : String) (dm : Option String) :
    (handleCallB64 resolve "generate_image"
        (.obj { prompt := some (.vStr p) }) d fsys).sentRequest
      = some { model := .vStr "black-forest-labs/FLUX.1-schnell-Free"
               width := .vNum 1024
               height := .vNum 768
               steps := .vNum 1
               n := .vNum 1
               response_format := .vStr "b64_json"
               prompt := p }
    ∧ (handleCallUrl ⟨key, endpoint, mkDefaultConfig dm⟩ "generate_image"
        (.obj { prompt := some (.vStr p) }) d).sentRequest
      = some { model := .vStr (jsOr dm "black-forest-labs/FLUX.1-schnell-Free")
               width := .vNum 1024
               height := .vNum 768
               steps := .vNum 1
               n := .vNum 1
               response_format := .vStr "url"
               prompt := p } := by
  constructor
  · rw [handleCallB64_sent resolve _ p d fsys rfl]; rfl
  · rw [handleCallUrl_sent _ _ p d rfl]; rfl

/-- **C2.** For every caller-supplied optional numeric field (width, height,
steps, n): a non-zero supplied value replaces the default in the outbound
request body, while a supplied value of exactly 0 is falsy and the configured
default is kept — in both variants, regardless of the other arguments. -/
theorem c2_numeric_zero_defaulting (o : ArgsObject) (p : String) (v : Int)
    (resolve : String → String) (d : Downstream) (fsys : FS)
    (cfg : InstanceConfig) :
    ((handleCallB64 resolve "generate_image"
        (.obj { o with prompt := some (.vStr p), width := some (.vNum v) })
        d fsys).sentRequest.map RequestBody.width
      = some (if v ≠ 0 then .vNum v else .vNum 1024))
    ∧ ((handleCallB64 resolve "generate_image"
        (.obj { o with prompt := some (.vStr p), height := some (.vNum v) })
        d fsys).sentRequest.map RequestBody.height
      = some (if v ≠ 0 then .vNum v else .vNum 768))
    ∧ ((handleCallB64 resolve "generate_image"
        (.obj { o with prompt := some (.vStr p), steps := some (.vNum v) })
        d fsys).sentRequest.map RequestBody.steps
      = some (if v ≠ 0 then .vNum v else .vNum 1))
    ∧ ((handleCallB64 resolve "generate_image"
        (.obj { o with prompt := some (.vStr p), n := some (.vNum v) })
        d fsys).sentRequest.map RequestBody.n
      = some (if v ≠ 0 then .vNum v else .vNum 1))
    ∧ ((handleCallUrl cfg "generate_image"
        (.obj { o with prompt := some (.vStr p), width := some (.vNum v) })
        d).sentRequest.map RequestBody.width
      = some (if v ≠ 0 then .vNum v else .vNum cfg.defaultConfig.width))
    ∧ ((handleCallUrl cfg "generate_image"
        (.obj { o with prompt := some (.vStr p), height := some (.vNum v) })
        d).sentRequest.map RequestBody.height
      = some (if v ≠ 0 then .vNum v else .vNum cfg.defaultConfig.height))
    ∧ ((handleCallUrl cfg "generate_image"
        (.obj { o with prompt := some (.vStr p), steps := some (.vNum v) })
        d).sentRequest.map RequestBody.steps
      = some (if v ≠ 0 then .vNum v else .vNum cfg.defaultConfig.steps))
    ∧ ((handleCallUrl cfg "generate_image"
        (.obj { o with prompt := some (.vStr p), n := some (.vNum v) })
        d).sentRequest.map RequestBody.n
      = some (if v ≠ 0 then .vNum v else .vNum cfg.defaultConfig.n)) := by
  refine ⟨?_, ?_, ?_, ?_, ?_, ?_, ?_, ?_⟩ <;>
    first
      | (rw [handleCallB64_sent _ _ p d fsys rfl]
         simp [buildRequestBody, overlayField_num, defaultConfig])
      | (rw [handleCallUrl_sent _ _ p d rfl]
         simp [buildRequestBodyUrl, overlayField_num])

/-- **C4.** For every `generate_image` invocation whose arguments bag is
absent, is not a structured object, lacks `prompt`, or has a non-string
`prompt`, both variants throw an invalid-params `McpError` — with a message
identifying `prompt` when `prompt` is the problem — leave the filesystem and
configuration untouched and perform no network call (`sentRequest = none`);
in particular the outcome is never an internal error. -/
theorem c4_invalid_arguments_rejected (resolve : String → String)
    (d : Downstream) (fsys : FS) (cfg : InstanceConfig) (v : ArgValue)
    (o : ArgsObject) (k : Int) (b : Bool) :
    handleCallB64 resolve "generate_image" .absent d fsys
      = ⟨.mcpError .invalidParams "Invalid arguments provided", none, fsys⟩
    ∧ handleCallB64 resolve "generate_image" (.nonObject v) d fsys
      = ⟨.mcpError .invalidParams "Invalid arguments provided", none, fsys⟩
    ∧ handleCallB64 resolve "generate_image" (.obj { o with prompt := none }) d fsys
      = ⟨.mcpError .invalidParams "Prompt is required and must be a string", none, fsys⟩
    ∧ handleCallB64 resolve "generate_image"
        (.obj { o with prompt := some (.vNum k) }) d fsys
      = ⟨.mcpError .invalidParams "Prompt is required and must be a string", none, fsys⟩
    ∧ handleCallB64 resolve "generate_image"
        (.obj { o with prompt := some (.vBool b) }) d fsys
      = ⟨.mcpError .invalidParams "Prompt is required and must be a string", none, fsys⟩
    ∧ handleCallB64 resolve "generate_image"
        (.obj { o with prompt := some .vNull }) d fsys
      = ⟨.mcpError .invalidParams "Prompt is required and must be a string", none, fsys⟩
    ∧ handleCallUrl cfg "generate_image" .absent d
      = ⟨.mcpError .invalidParams "Invalid arguments provided", none, cfg⟩
    ∧ handleCallUrl cfg "generate_image" (.nonObject v) d
      = ⟨.mcpError .invalidParams "Invalid arguments provided", none, cfg⟩
    ∧ handleCallUrl cfg "generate_image" (.obj { o with prompt := none }) d
      = ⟨.mcpError .invalidParams "Prompt is required and must be a string", none, cfg⟩
    ∧ handleCallUrl cfg "generate_image" (.obj { o with prompt := some (.vNum k) }) d
      = ⟨.mcpError .invalidParams "Prompt is required and must be a string", none, cfg⟩
    ∧ handleCallUrl cfg "generate_image" (.obj { o with prompt := some (.vBool b) }) d
      = ⟨.mcpError .invalidParams "Prompt is required and must be a string", none, cfg⟩
    ∧ handleCallUrl cfg "generate_image" (.obj { o with prompt := some .vNull }) d
      = ⟨.mcpError .invalidParams "Prompt is required and must be a string", none, cfg⟩ := by
  refine ⟨?_, ?_, ?_, ?_, ?_, ?_, ?_, ?_, ?_, ?_, ?_, ?_⟩ <;> rfl

/-- **C5.** For every invocation whose operation name is not
`generate_image`, both variants throw a method-not-found `McpError` naming
the unrecognized operation, perform no network call (`sentRequest = none`)
and leave the filesystem and configuration untouched. -/
theorem c5_unknown_tool_method_not_found (name : String)
    (h : name ≠ "generate_image") (resolve : String → String)
    (args : Arguments) (d : Downstream) (fsys : FS) (cfg : InstanceConfig) :
    handleCallB64 resolve name args d fsys
      = ⟨.mcpError .methodNotFound ("Unknown tool: " ++ name), none, fsys⟩
    ∧ handleCallUrl cfg name args d
      = ⟨.mcpError .methodNotFound ("Unknown tool: " ++ name), none, cfg⟩ := by
  have hv : validateCall name args
      = .error (.mcpError .methodNotFound ("Unknown tool: " ++ name)) := by
    unfold validateCall
    rw [if_pos h]
  constructor
  · unfold handleCallB64; rw [hv]
  · unfold handleCallUrl; rw [hv]

/-- Witness for C5 at the concrete operation name `"foo"`. -/
theorem c5_unknown_tool_method_not_found_witness :
    handleCallB64 id "foo" .absent (.otherFailure "boom") []
      = ⟨.mcpError .methodNotFound "Unknown tool: foo", none, []⟩
    ∧ handleCallUrl ⟨"k", "https://api.example", mkDefaultConfig none⟩ "foo"
        .absent (.otherFailure "boom")
      = ⟨.mcpError .methodNotFound "Unknown tool: foo", none,
         ⟨"k", "https://api.example", mkDefaultConfig none⟩⟩ :=
  c5_unknown_tool_method_not_found "foo" (by decide) id .absent
    (.otherFailure "boom") [] ⟨"k", "https://api.example", mkDefaultConfig none⟩

theorem handleCallUrl_image_path_drop (cfg : InstanceConfig) (o : ArgsObject)
    (d : Downstream) (x : Option ArgValue) :
    handleCallUrl cfg "generate_image" (.obj { o with image_path := x }) d
      = handleCallUrl cfg "generate_image" (.obj o) d := by
  obtain ⟨pr, mo, w, h, st, nn, rf, ip⟩ := o
  cases pr with
  | none => rfl
  | some v => cases v <;> cases d <;> rfl

/-- **C6.** In the URL-forced variant, for every arguments bag — including
one that supplies its own `response_format` value — every outbound request
body carries `response_format = "url"`, and a caller-supplied `image_path`
persistence value has no effect whatsoever on the invocation. -/
theorem c6_url_variant_forces_url (cfg : InstanceConfig) (o : ArgsObject)
    (p : String) (d : Downstream) (x y : Option ArgValue) :
    ((handleCallUrl cfg "generate_image"
        (.obj { o with prompt := some (.vStr p) }) d).sentRequest.map
          RequestBody.response_format
      = some (.vStr "url"))
    ∧ handleCallUrl cfg "generate_image" (.obj { o with image_path := x }) d
      = handleCallUrl cfg "generate_image" (.obj { o with image_path := y }) d := by
  constructor
  · rw [handleCallUrl_sent _ _ p d rfl]; rfl
  · rw [handleCallUrl_image_path_drop cfg o d x, handleCallUrl_image_path_drop cfg o d y]

/-- **C10.** Handling a call never mutates the server's configuration: the
URL-forced variant's handler returns the instance state (defaults,
credential, endpoint) unchanged, the outbound request body is independent of
the downstream outcome, and a second invocation with identical arguments
against the configuration left by the first produces an identical outbound
request body. -/
theorem c10_configuration_never_mutated (cfg : InstanceConfig) (name : String)
    (args : Arguments) (d d' : Downstream) :
    (handleCallUrl cfg name args d).cfgAfter = cfg
    ∧ (handleCallUrl cfg name args d).sentRequest
      = (handleCallUrl cfg name args d').sentRequest
    ∧ (handleCallUrl (handleCallUrl cfg name args d).cfgAfter name args d').sentRequest
      = (handleCallUrl cfg name args d').sentRequest := by
  have hcfg : ∀ e : Downstream, (handleCallUrl cfg name args e).cfgAfter = cfg := by
    intro e
    unfold handleCallUrl
    rcases validateCall name args with out | ⟨o, p⟩
    · rfl
    · cases e <;> rfl
  have hsent : (handleCallUrl cfg name args d).sentRequest
      = (handleCallUrl cfg name args d').sentRequest := by
    unfold handleCallUrl
    rcases validateCall name args with out | ⟨o, p⟩
    · rfl
    · cases d <;> cases d' <;> rfl
  exact ⟨hcfg d, hsent, by rw [hcfg d]⟩

theorem handleCallUrl_success_outcome (cfg : InstanceConfig) (o : ArgsObject)
    (p : String) (resp : ApiResponse) (h : o.prompt = some (.vStr p)) :
    (handleCallUrl cfg "generate_image" (.obj o) (.success resp)).outcome
      = shapeSuccessUrl resp := by
  unfold handleCallUrl
  rw [validateCall_ok o p h]

/-- **C7.** In the URL-forced variant, for every downstream success
response: when the first image entry carries a (non-empty) remote address,
the invocation's response content is exactly that address and nothing else;
when no image URL is present — the field absent, the `data` list empty, or
the value the empty string, which the source's falsy check treats as absent
— the handler throws an internal `McpError` whose message mentions the
missing image URL. -/
theorem c7_url_extraction (cfg : InstanceConfig) (o : ArgsObject) (p : String)
    (resp : ApiResponse) :
    (∀ u, firstUrl resp = some u → u ≠ "" →
      (handleCallUrl cfg "generate_image"
          (.obj { o with prompt := some (.vStr p) }) (.success resp)).outcome
        = .toolResult [u] false)
    ∧ (firstUrl resp = none →
      (handleCallUrl cfg "generate_image"
          (.obj { o with prompt := some (.vStr p) }) (.success resp)).outcome
        = .mcpError .internalError "API response did not contain an image URL.")
    ∧ (firstUrl resp = some "" →
      (handleCallUrl cfg "generate_image"
          (.obj { o with prompt := some (.vStr p) }) (.success resp)).outcome
        = .mcpError .internalError "API response did not contain an image URL.") := by
  rw [handleCallUrl_success_outcome cfg _ p resp rfl]
  refine ⟨?_, ?_, ?_⟩
  · intro u hu hne
    simp [shapeSuccessUrl, hu, hne]
  · intro hn
    simp [shapeSuccessUrl, hn]
  · intro he
    simp [shapeSuccessUrl, he]

/-- Witness for C7: a concrete success response whose first entry carries
`https://img.example/1.png`, and a concrete empty response. -/
theorem c7_url_extraction_witness :
    (handleCallUrl ⟨"k", "https://api.example", mkDefaultConfig none⟩
        "generate_image" (.obj { prompt := some (.vStr "a cat") })
        (.success ⟨[{ url := some "https://img.example/1.png" }], "{}"⟩)).outcome
      = .toolResult ["https://img.example/1.png"] false
    ∧ (handleCallUrl ⟨"k", "https://api.example", mkDefaultConfig none⟩
        "generate_image" (.obj { prompt := some (.vStr "a cat") })
        (.success ⟨[], "{}"⟩)).outcome
      = .mcpError .internalError "API response did not contain an image URL." :=
  ⟨(c7_url_extraction ⟨"k", "https://api.example", mkDefaultConfig none⟩
      { prompt := some (.vStr "a cat") } "a cat"
      ⟨[{ url := some "https://img.example/1.png" }], "{}"⟩).1
    "https://img.example/1.png" rfl (by decide),
   (c7_url_extraction ⟨"k", "https://api.example", mkDefaultConfig none⟩
      { prompt := some (.vStr "a cat") } "a cat" ⟨[], "{}"⟩).2.1 rfl⟩

/-- **C9, counterexample.** The claim says a downstream failure that is an
axios transport error *without* a structured response is propagated as a
fault; but the source's catch block tests only `axios.isAxiosError`, so a
pure network failure (no response at all, `error.message = "Network Error"`)
is returned as a completed result flagged `isError` — not a fault — in both
variants. -/
theorem c9_transport_fault_counterexample :
    (handleCallUrl ⟨"k", "https://api.example", mkDefaultConfig none⟩
        "generate_image" (.obj { prompt := some (.vStr "a cat") })
        (.axiosError none "Network Error")).outcome
      = .toolResult ["API Error: Network Error"] true
    ∧ (handleCallB64 id "generate_image" (.obj { prompt := some (.vStr "a cat") })
        (.axiosError none "Network Error") []).outcome
      = .toolResult ["API Error: Network Error"] true
    ∧ CallOutcome.toolResult ["API Error: Network Error"] true
        ≠ .fault "Network Error" := by
  refine ⟨rfl, rfl, by decide⟩

/-- **C9, amended.** Every downstream failure recognized as an axios
transport error — whether or not it carries a structured response — yields a
completed invocation result flagged as an error whose text is `API Error: `
followed by the downstream-provided message when present and non-empty,
else the raw transport error text; only failures not recognized as axios
errors are propagated unchanged as faults.  Holds in both variants. -/
theorem c9_amended_axios_flagged_other_fault (cfg : InstanceConfig)
    (o : ArgsObject) (p : String) (resolve : String → String) (fsys : FS)
    (response : Option (Option String)) (message e : String) :
    ((handleCallUrl cfg "generate_image"
        (.obj { o with prompt := some (.vStr p) })
        (.axiosError response message)).outcome
      = .toolResult [axiosErrorText response message] true)
    ∧ ((handleCallB64 resolve "generate_image"
        (.obj { o with prompt := some (.vStr p) })
        (.axiosError response message) fsys).outcome
      = .toolResult [axiosErrorText response message] true)
    ∧ ((handleCallUrl cfg "generate_image"
        (.obj { o with prompt := some (.vStr p) }) (.otherFailure e)).outcome
      = .fault e)
    ∧ ((handleCallB64 resolve "generate_image"
        (.obj { o with prompt := some (.vStr p) }) (.otherFailure e) fsys).outcome
      = .fault e) := by
  refine ⟨?_, ?_, ?_, ?_⟩ <;>
    first
      | (unfold handleCallUrl; rw [validateCall_ok _ p rfl])
      | (unfold handleCallB64; rw [validateCall_ok _ p rfl])

/-- Following the spec's words, for comparison with the code's behaviour
(claim C3): every field present in an outbound payload satisfies its declared
constraint — `prompt` non-empty text, `model` text, `width`/`height` numbers
in `[128, 2048]`, `steps` a number in `[1, 100]`, `n` a number in `[1, 4]`. -/
def SatisfiesDeclaredConstraints (b : RequestBody) : Prop :=
  b.prompt ≠ ""
  ∧ (∃ s : String, b.model = .vStr s)
  ∧ (∃ k : Int, b.width = .vNum k ∧ 128 ≤ k ∧ k ≤ 2048)
  ∧ (∃ k : Int, b.height = .vNum k ∧ 128 ≤ k ∧ k ≤ 2048)
  ∧ (∃ k : Int, b.steps = .vNum k ∧ 1 ≤ k ∧ k ≤ 100)
  ∧ (∃ k : Int, b.n = .vNum k ∧ 1 ≤ k ∧ k ≤ 4)

/-- **C3, counterexample.** The handler does not re-enforce the schema's
numeric bounds: a caller-supplied `width` of 99999 is truthy, so it is
forwarded as-is in the outbound payload, which therefore violates the
declared `[128, 2048]` constraint. -/
theorem c3_constraints_counterexample :
    (handleCallB64 id "generate_image"
        (.obj { prompt := some (.vStr "a cat"), width := some (.vNum 99999) })
        (.otherFailure "net") []).sentRequest
      = some { model := .vStr "black-forest-labs/FLUX.1-schnell-Free"
               width := .vNum 99999
               height := .vNum 768
               steps := .vNum 1
               n := .vNum 1
               response_format := .vStr "b64_json"
               prompt := "a cat" }
    ∧ ¬ SatisfiesDeclaredConstraints
        { model := .vStr "black-forest-labs/FLUX.1-schnell-Free"
          width := .vNum 99999
          height := .vNum 768
          steps := .vNum 1
          n := .vNum 1
          response_format := .vStr "b64_json"
          prompt := "a cat" } := by
  constructor
  · rfl
  · rintro ⟨-, -, ⟨k, hk, -, hk2⟩, -⟩
    rw [ArgValue.vNum.injEq] at hk
    omega

/-- **C3, amended.** Fields the caller omitted fall back to the configured
defaults, and every configured default satisfies its declared constraint —
so a request built from a non-empty prompt alone satisfies every declared
constraint, in both variants (the URL-forced variant shown with its
constructor-built defaults).  Caller-supplied values, however, are forwarded
as-is and are not clamped to the declared bounds. -/
theorem c3_amended_defaults_satisfy_constraints (o : ArgsObject) (p : String)
    (hp : p ≠ "") (dm : Option String) :
    SatisfiesDeclaredConstraints (buildRequestBody { prompt := some (.vStr p) } p)
    ∧ SatisfiesDeclaredConstraints
        (buildRequestBodyUrl (mkDefaultConfig dm) { prompt := some (.vStr p) } p)
    ∧ (o.model = none → (buildRequestBody o p).model = .vStr defaultConfig.model)
    ∧ (o.width = none → (buildRequestBody o p).width = .vNum defaultConfig.width)
    ∧ (o.height = none → (buildRequestBody o p).height = .vNum defaultConfig.height)
    ∧ (o.steps = none → (buildRequestBody o p).steps = .vNum defaultConfig.steps)
    ∧ (o.n = none → (buildRequestBody o p).n = .vNum defaultConfig.n)
    ∧ (o.response_format = none →
        (buildRequestBody o p).response_format = .vStr defaultConfig.response_format) := by
  refine ⟨⟨hp, ⟨_, rfl⟩, ⟨1024, rfl, by omega⟩, ⟨768, rfl, by omega⟩,
            ⟨1, rfl, by omega⟩, ⟨1, rfl, by omega⟩⟩,
          ⟨hp, ⟨_, rfl⟩, ⟨1024, rfl, by omega⟩, ⟨768, rfl, by omega⟩,
            ⟨1, rfl, by omega⟩, ⟨1, rfl, by omega⟩⟩, ?_, ?_, ?_, ?_, ?_, ?_⟩ <;>
    · intro h
      simp [buildRequestBody, h, overlayField]

/-- Witness for the amended C3 at a concrete non-empty prompt. -/
theorem c3_amended_defaults_satisfy_constraints_witness :
    SatisfiesDeclaredConstraints (buildRequestBody { prompt := some (.vStr "a cat") } "a cat")
    ∧ (buildRequestBody { prompt := some (.vStr "a cat") } "a cat").width = .vNum 1024 :=
  ⟨(c3_amended_defaults_satisfy_constraints { prompt := some (.vStr "a cat") }
      "a cat" (by decide) none).1,
   (c3_amended_defaults_satisfy_constraints { prompt := some (.vStr "a cat") }
      "a cat" (by decide) none).2.2.2.1 rfl⟩

/-! ## Base64 round-trip -/

theorem charToSixbit_sixbitToChar : ∀ k < 64, charToSixbit (sixbitToChar k) = some k := by
  decide

theorem sixbitToChar_ne_pad : ∀ k < 64, sixbitToChar k ≠ '=' := by
  decide

theorem decodeB64_pad2 (w x : Nat) (hw : w < 64) (hx : x < 64) (c4 : Char)
    (rest : List Char) :
    decodeB64 (sixbitToChar w :: sixbitToChar x :: '=' :: c4 :: rest)
      = [w * 4 + x / 16] := by
  simp only [decodeB64, charToSixbit_sixbitToChar w hw, charToSixbit_sixbitToChar x hx,
    if_pos rfl]
  simp

theorem decodeB64_pad1 (w x y : Nat) (hw : w < 64) (hx : x < 64) (hy : y < 64)
    (rest : List Char) :
    decodeB64 (sixbitToChar w :: sixbitToChar x :: sixbitToChar y :: '=' :: rest)
      = [w * 4 + x / 16, x % 16 * 16 + y / 4] := by
  simp only [decodeB64, charToSixbit_sixbitToChar w hw, charToSixbit_sixbitToChar x hx,
    charToSixbit_sixbitToChar y hy, if_neg (sixbitToChar_ne_pad y hy), if_pos rfl]
  simp

theorem decodeB64_full (w x y z : Nat) (hw : w < 64) (hx : x < 64) (hy : y < 64)
    (hz : z < 64) (rest : List Char) :
    decodeB64 (sixbitToChar w :: sixbitToChar x :: sixbitToChar y :: sixbitToChar z :: rest)
      = (w * 4 + x / 16) :: (x % 16 * 16 + y / 4) :: (y % 4 * 64 + z) :: decodeB64 rest := by
  simp only [decodeB64, charToSixbit_sixbitToChar w hw, charToSixbit_sixbitToChar x hx,
    charToSixbit_sixbitToChar y hy, charToSixbit_sixbitToChar z hz,
    if_neg (sixbitToChar_ne_pad y hy), if_neg (sixbitToChar_ne_pad z hz)]

/-- Decoding inverts encoding on any byte list. -/
theorem decodeB64_encodeB64 (bs : List Nat) (h : ∀ b ∈ bs, b < 256) :
    decodeB64 (encodeB64 bs) = bs := by
  match bs with
  | [] => rfl
  | [a] =>
    have ha : a < 256 := h a (by simp)
    rw [show encodeB64 [a]
        = [sixbitToChar (a / 4), sixbitToChar (a % 4 * 16), '=', '='] from rfl]
    rw [decodeB64_pad2 _ _ (by omega) (by omega)]
    congr 1
    omega
  | [a, b] =>
    have ha : a < 256 := h a (by simp)
    have hb : b < 256 := h b (by simp)
    rw [show encodeB64 [a, b]
        = [sixbitToChar (a / 4), sixbitToChar (a % 4 * 16 + b / 16),
           sixbitToChar (b % 16 * 4), '='] from rfl]
    rw [decodeB64_pad1 _ _ _ (by omega) (by omega) (by omega)]
    congr 1
    · omega
    · congr 1
      omega
  | a :: b :: c :: rest =>
    have ha : a < 256 := h a (by simp)
    have hb : b < 256 := h b (by simp)
    have hc : c < 256 := h c (by simp)
    have ih := decodeB64_encodeB64 rest (fun x hx => h x (by simp [hx]))
    rw [show encodeB64 (a :: b :: c :: rest)
        = sixbitToChar (a / 4) :: sixbitToChar (a % 4 * 16 + b / 16) ::
          sixbitToChar (b % 16 * 4 + c / 64) :: sixbitToChar (c % 64) ::
          encodeB64 rest from rfl]
    rw [decodeB64_full _ _ _ _ (by omega) (by omega) (by omega) (by omega)]
    rw [ih]
    congr 1
    · omega
    · congr 1
      · omega
      · congr 1
        omega
termination_by bs.length

theorem encodeB64_ne_nil (bs : List Nat) (h : bs ≠ []) : encodeB64 bs ≠ [] := by
  match bs with
  | [] => exact absurd rfl h
  | [a] => simp [encodeB64]
  | [a, b] => simp [encodeB64]
  | a :: b :: c :: rest => simp [encodeB64]

theorem toBase64String_ne_empty (bs : List Nat) (h : bs ≠ []) :
    toBase64String bs ≠ "" := by
  intro he
  exact encodeB64_ne_nil bs h (by simpa using congrArg String.data he)

theorem bufferFromBase64_toBase64String (bs : List Nat) (h : ∀ b ∈ bs, b < 256) :
    bufferFromBase64 (toBase64String bs) = bs := by
  unfold bufferFromBase64 toBase64String
  rw [show (String.mk (encodeB64 bs)).toList = encodeB64 bs from rfl]
  exact decodeB64_encodeB64 bs h

theorem readFS_writeFS (fsys : FS) (p : String) (bytes : List Nat) :
    readFS (writeFS fsys p bytes) p = some bytes := by
  simp [readFS, writeFS]

theorem shapeSuccessB64_saves (resolve : String → String) (o : ArgsObject)
    (ip s raw : String) (u : Option String) (es : List ImageEntry) (fsys : FS)
    (hip : ip ≠ "") (hs : s ≠ "") (ho : o.image_path = some (.vStr ip)) :
    shapeSuccessB64 resolve o ⟨⟨some s, u⟩ :: es, raw⟩ fsys
      = (.toolResult
          ["Image saved successfully to: " ++ resolve ip ++ "\n\n" ++ raw] false,
         writeFS fsys (resolve ip) (bufferFromBase64 s)) := by
  unfold shapeSuccessB64 firstB64
  rw [ho]
  simp [truthy, hip, hs]

/-- **C8.** In the inline/optional-save variant, for every downstream
success response whose first image entry carries (non-empty) inline base64
data and every (non-empty) caller-supplied save path: the handler writes
exactly the base64-decoded bytes to the resolved path, and the response text
starts with a confirmation naming that resolved path; in particular,
encoding any non-empty byte sequence to base64, running it through the
decode-and-save path, and reading back the written file reproduces the
original bytes exactly (base64 round-trip). -/
theorem c8_save_base64_roundtrip (resolve : String → String) (o : ArgsObject)
    (pr ip raw : String) (u : Option String) (es : List ImageEntry)
    (bytes : List Nat) (fsys : FS)
    (hip : ip ≠ "") (hb : bytes ≠ []) (hlt : ∀ b ∈ bytes, b < 256) :
    handleCallB64 resolve "generate_image"
        (.obj { o with prompt := some (.vStr pr), image_path := some (.vStr ip) })
        (.success ⟨⟨some (toBase64String bytes), u⟩ :: es, raw⟩) fsys
      = ⟨.toolResult
            ["Image saved successfully to: " ++ resolve ip ++ "\n\n" ++ raw] false,
         some (buildRequestBody
            { o with prompt := some (.vStr pr), image_path := some (.vStr ip) } pr),
         writeFS fsys (resolve ip) bytes⟩
    ∧ readFS (writeFS fsys (resolve ip) bytes) (resolve ip) = some bytes := by
  have hdecode : bufferFromBase64 (toBase64String bytes) = bytes :=
    bufferFromBase64_toBase64String bytes hlt
  constructor
  · unfold handleCallB64
    rw [validateCall_ok _ pr rfl]
    have hshape := shapeSuccessB64_saves resolve
      { o with prompt := some (.vStr pr), image_path := some (.vStr ip) }
      ip (toBase64String bytes) raw u es fsys hip
      (toBase64String_ne_empty bytes hb) rfl
    rw [hdecode] at hshape
    simp only [hshape]
  · rw [readFS_writeFS]

/-- Witness for C8: the four bytes `[137, 80, 78, 71]` encoded to base64,
run through the decode-and-save path with path `out.png` (resolved by `id`),
are written and read back unchanged. -/
theorem c8_save_base64_roundtrip_witness :
    handleCallB64 id "generate_image"
        (.obj { prompt := some (.vStr "a cat"), image_path := some (.vStr "out.png") })
        (.success ⟨[⟨some (toBase64String [137, 80, 78, 71]), none⟩], "{}"⟩) []
      = ⟨.toolResult
            ["Image saved successfully to: " ++ id "out.png" ++ "\n\n" ++ "{}"] false,
         some (buildRequestBody
            { prompt := some (.vStr "a cat"), image_path := some (.vStr "out.png") } "a cat"),
         writeFS [] (id "out.png") [137, 80, 78, 71]⟩
    ∧ readFS (writeFS [] (id "out.png") [137, 80, 78, 71]) (id "out.png")
      = some [137, 80, 78, 71] :=
  c8_save_base64_roundtrip id {} "a cat" "out.png" "{}" none [] [137, 80, 78, 71] []
    (by decide) (by decide) (by decide)

end ImageMcp
